import Mathlib

/-!
# Verification of the libsql synchronous client facade

A shallow embedding of the JavaScript facade (`convertError`, the `Database`
connection facade with `prepare`/`exec`/`pragma`/`transaction`, and the
`Statement` handle with its execution verbs) together with proofs of the
spec's testable properties.

JavaScript values are modelled by the inductive `JSValue`; thrown values are
plain `JSValue`s and fallible computations return `Except JSValue α`.
`JSON.parse` is modelled by an executable recursive-descent parser over the
same value type.  Modelling notes: JSON numbers are modelled as integers
(fractions, exponents and `\u` escapes are not recognised by the model
parser; none of the verified properties depends on them), and the native
engine — an external collaborator of the facade — is represented abstractly
by result-valued functions.
-/

/-- The internal class ("brand") of a JavaScript object value: a plain
object, a generic error, a `TypeError`, or a `SqliteError`. -/
inductive JSClass where
  | plain
  | error
  | typeError
  | sqliteError
deriving DecidableEq

/-- A JavaScript value, as far as the facade needs them: the two nullish
values, primitives, arrays and (branded) objects with string-keyed fields. -/
inductive JSValue where
  | undefined
  | null
  | boolean (b : Bool)
  | number (n : Int)
  | string (s : String)
  | array (elems : List JSValue)
  | object (cls : JSClass) (fields : List (String × JSValue))

/-- `typeof v` as a string, following JavaScript (`typeof null` is
`"object"`, arrays are `"object"`). -/
def jsTypeof : JSValue → String
  | .undefined => "undefined"
  | .null => "object"
  | .boolean _ => "boolean"
  | .number _ => "number"
  | .string _ => "string"
  | .array _ => "object"
  | .object _ _ => "object"

/-- JavaScript truthiness of a value. -/
def truthy : JSValue → Bool
  | .undefined => false
  | .null => false
  | .boolean b => b
  | .number n => decide (n ≠ 0)
  | .string s => decide (s ≠ "")
  | .array _ => true
  | .object _ _ => true

/-- A `TypeError` with the given message, as thrown by the runtime or by the
facade's argument checks. -/
def mkTypeError (msg : String) : JSValue :=
  .object .typeError [("message", .string msg)]

/-- Whether a value is a `TypeError` instance. -/
def isTypeErrorVal : JSValue → Bool
  | .object .typeError _ => true
  | _ => false

/-- Property read `v[k]`: throws a `TypeError` on the nullish values,
returns the field (or `undefined`) on objects, and `undefined` on primitives
and arrays (the properties the facade reads never exist on those). -/
def getProp (v : JSValue) (k : String) : Except JSValue JSValue :=
  match v with
  | .undefined => .error (mkTypeError ("Cannot read properties of undefined (reading " ++ k ++ ")"))
  | .null => .error (mkTypeError ("Cannot read properties of null (reading " ++ k ++ ")"))
  | .object _ fields => .ok ((fields.lookup k).getD .undefined)
  | _ => .ok .undefined

/-- Modelled from the spec: the `SqliteError` class lives in
`sqlite-error.js`, which is not among the provided sources.  Per the spec
(§3 "Normalized Error", §6 "Exposed error shape"), a normalized error
exposes `message`, `code` and `rawCode` as stable fields; the constructor
stores its three arguments under those names. -/
def mkSqliteError (message code rawCode : JSValue) : JSValue :=
  .object .sqliteError [("message", message), ("code", code), ("rawCode", rawCode)]

/-! ## A model of `JSON.parse` -/

/-- Skip JSON whitespace (space, tab, newline, carriage return). -/
def skipWs : List Char → List Char
  | c :: rest =>
      if c = ' ' ∨ c = '\t' ∨ c = '\n' ∨ c = '\r' then skipWs rest else c :: rest
  | [] => []

/-- Consume an expected literal character sequence. -/
def matchLit : List Char → List Char → Option (List Char)
  | [], cs => some cs
  | p :: ps, c :: cs => if c = p then matchLit ps cs else none
  | _ :: _, [] => none

/-- Take a maximal run of decimal digits. -/
def takeDigits : List Char → List Char × List Char
  | c :: rest =>
      if c.isDigit then
        let p := takeDigits rest
        (c :: p.1, p.2)
      else ([], c :: rest)
  | [] => ([], [])

/-- The numeric value of a digit run. -/
def digitsToNat : List Char → Nat → Nat
  | [], acc => acc
  | c :: rest, acc => digitsToNat rest (acc * 10 + (c.toNat - 48))

/-- Assign a field of a JS object, overwriting an earlier occurrence of the
same key (as `JSON.parse` does for duplicate keys). -/
def setField : List (String × JSValue) → String → JSValue → List (String × JSValue)
  | [], k, v => [(k, v)]
  | (k0, v0) :: rest, k, v =>
      if k0 = k then (k, v) :: rest else (k0, v0) :: setField rest k v

/-- The opening brace character. -/
def lbrace : Char := Char.ofNat 123

/-- The closing brace character. -/
def rbrace : Char := Char.ofNat 125

/-- Parse the body of a JSON string (the opening quote already consumed),
returning its characters and the rest of the input.  Recognises the
single-character escapes; `\u` escapes are outside the model. -/
def parseStringChars : Nat → List Char → Option (List Char × List Char)
  | 0, _ => none
  | _ + 1, [] => none
  | fuel + 1, c :: rest =>
      if c = '"' then some ([], rest)
      else if c = '\\' then
        match rest with
        | [] => none
        | e :: rest2 =>
            let esc : Option Char :=
              if e = '"' then some '"'
              else if e = '\\' then some '\\'
              else if e = '/' then some '/'
              else if e = 'n' then some '\n'
              else if e = 't' then some '\t'
              else if e = 'r' then some '\r'
              else if e = 'b' then some (Char.ofNat 8)
              else if e = 'f' then some (Char.ofNat 12)
              else none
            match esc with
            | some ch => (parseStringChars fuel rest2).map fun p => (ch :: p.1, p.2)
            | none => none
      else (parseStringChars fuel rest).map fun p => (c :: p.1, p.2)

mutual

/-- Parse one JSON value (leading whitespace allowed). -/
def parseValue : Nat → List Char → Option (JSValue × List Char)
  | 0, _ => none
  | fuel + 1, cs0 =>
      match skipWs cs0 with
      | [] => none
      | c :: rest =>
          if c = '"' then
            match parseStringChars (rest.length + 1) rest with
            | some (s, r) => some (.string (String.mk s), r)
            | none => none
          else if c = lbrace then
            match skipWs rest with
            | [] => none
            | d :: r2 =>
                if d = rbrace then some (.object .plain [], r2)
                else parseMembers fuel (d :: r2) []
          else if c = '[' then
            match skipWs rest with
            | [] => none
            | d :: r2 =>
                if d = ']' then some (.array [], r2)
                else parseElements fuel (d :: r2) []
          else if c = 't' then
            (matchLit "rue".toList rest).map fun r => (.boolean true, r)
          else if c = 'f' then
            (matchLit "alse".toList rest).map fun r => (.boolean false, r)
          else if c = 'n' then
            (matchLit "ull".toList rest).map fun r => (.null, r)
          else if c = '-' then
            match takeDigits rest with
            | ([], _) => none
            | (ds, r) => some (.number (-(digitsToNat ds 0 : Int)), r)
          else if c.isDigit then
            match takeDigits (c :: rest) with
            | (ds, r) => some (.number (digitsToNat ds 0 : Int), r)
          else none

/-- Parse the members of a JSON object, positioned at a key. -/
def parseMembers : Nat → List Char → List (String × JSValue) → Option (JSValue × List Char)
  | 0, _, _ => none
  | fuel + 1, cs, acc =>
      match cs with
      | [] => none
      | c :: rest =>
          if c = '"' then
            match parseStringChars (rest.length + 1) rest with
            | some (k, r1) =>
                match skipWs r1 with
                | ':' :: r2 =>
                    match parseValue fuel r2 with
                    | some (v, r3) =>
                        let acc2 := setField acc (String.mk k) v
                        match skipWs r3 with
                        | ',' :: r4 => parseMembers fuel (skipWs r4) acc2
                        | d :: r4 =>
                            if d = rbrace then some (.object .plain acc2, r4) else none
                        | [] => none
                    | none => none
                | _ => none
            | none => none
          else none

/-- Parse the elements of a JSON array, positioned at a value. -/
def parseElements : Nat → List Char → List JSValue → Option (JSValue × List Char)
  | 0, _, _ => none
  | fuel + 1, cs, acc =>
      match parseValue fuel cs with
      | some (v, r1) =>
          match skipWs r1 with
          | ',' :: r2 => parseElements fuel r2 (acc ++ [v])
          | ']' :: r2 => some (.array (acc ++ [v]), r2)
          | _ => none
      | none => none

end

/-- The model of `JSON.parse`: parse one value and require only whitespace
to remain; `none` models a thrown `SyntaxError`. -/
def jsonParse (s : String) : Option JSValue :=
  let cs := s.toList
  match parseValue (2 * cs.length + 4) cs with
  | some (v, rest) => if skipWs rest = [] then some v else none
  | none => none

/-! ## The error normalizer `convertError`

```js
function convertError(err) {
  if (typeof err.message === 'string') {
    try {
      const data = JSON.parse(err.message);
      if (data && data.libsqlError) {
        return new SqliteError(data.message, data.code, data.rawCode);
      }
    } catch (_) {}
  }
  return err;
}
```
Reading `err.message` happens outside the `try`, so it may itself throw (on
a nullish `err`); everything inside the `try` that throws is swallowed by
the `catch` and falls through to `return err`.  `convertBody` is the part
after the `message` read, which can no longer throw. -/

/-- The body of `convertError` once `err.message` has been read into `msg`:
parse it as JSON, check the `libsqlError` marker, and either build a
`SqliteError` from the payload or fall through to the original error.  Any
throw inside the `try` block is swallowed by the `catch` (yielding `err`). -/
def convertBody (err msg : JSValue) : JSValue :=
  match msg with
  | .string s =>
      match jsonParse s with
      | some data =>
          if truthy data then
            match getProp data "libsqlError" with
            | .ok marker =>
                if truthy marker then
                  match getProp data "message", getProp data "code", getProp data "rawCode" with
                  | .ok m, .ok c, .ok r => mkSqliteError m c r
                  | _, _, _ => err
                else err
            | .error _ => err
          else err
      | none => err
  | _ => err

/-- `convertError(err)`: throws only if the initial `err.message` read
throws; otherwise returns either a fresh `SqliteError` (structured engine
failure) or the original error value unchanged. -/
def convertError (err : JSValue) : Except JSValue JSValue :=
  match getProp err "message" with
  | .error t => .error t
  | .ok msg => .ok (convertBody err msg)

/-- The value raised by the statement `throw convertError(err)`: the
converted error when `convertError` returns, or the `TypeError` raised by
`convertError` itself when `err` is nullish. -/
def convertThrow (err : JSValue) : JSValue :=
  match convertError err with
  | .ok e => e
  | .error t => t

/-! ## The native engine boundary

The native engine (`index.js`, a NAPI binding) is an external collaborator;
per the spec (§1, §6) the facade consumes it as an opaque capability whose
calls either produce a value or throw an opaque error payload.  Each native
entry point is therefore modelled as a function chosen arbitrarily by the
environment. -/

/-- Outcome of one native engine call: a produced value or a thrown one. -/
inductive EngineResult where
  | ok (v : JSValue)
  | thrown (e : JSValue)

/-- The native prepared-statement surface consumed by the facade
(spec §6): each execution verb's outcome may depend on the statement's
current pluck flag and on the bind parameters. -/
structure StmtApi where
  runFn : Bool → List JSValue → EngineResult
  getFn : Bool → List JSValue → EngineResult
  allFn : Bool → List JSValue → EngineResult
  iterateFn : Bool → List JSValue → EngineResult

/-- A native prepared statement: its mutable pluck-mode flag (off at
creation, spec §3) together with its engine behavior. -/
structure NativeStmt where
  pluckFlag : Bool
  api : StmtApi

/-- The native connection surface consumed by the facade (spec §6):
`prepare(sql)` yields a native statement handle or throws, `exec(sql)`
succeeds or throws. -/
structure Engine where
  prepareFn : String → Except JSValue StmtApi
  execFn : String → Option JSValue

/-! ## The `Statement` facade -/

/-- The `Statement` facade class: wraps one native prepared statement
(`this.stmt`). -/
structure Statement where
  stmt : NativeStmt

/-- The shared `try { return engine-call } catch (err) { throw
convertError(err) }` pattern of the four execution verbs. -/
def guarded (r : EngineResult) : Except JSValue JSValue :=
  match r with
  | .ok v => .ok v
  | .thrown e => .error (convertThrow e)

/-- `Statement.prototype.run`: delegate to the native handle, normalizing a
thrown error. -/
def Statement.run (s : Statement) (bindParameters : List JSValue) : Except JSValue JSValue :=
  guarded (s.stmt.api.runFn s.stmt.pluckFlag bindParameters)

/-- `Statement.prototype.get`: delegate to the native handle, normalizing a
thrown error. -/
def Statement.get (s : Statement) (bindParameters : List JSValue) : Except JSValue JSValue :=
  guarded (s.stmt.api.getFn s.stmt.pluckFlag bindParameters)

/-- `Statement.prototype.iterate`: delegate to the native handle,
normalizing a thrown error. -/
def Statement.iterate (s : Statement) (bindParameters : List JSValue) : Except JSValue JSValue :=
  guarded (s.stmt.api.iterateFn s.stmt.pluckFlag bindParameters)

/-- `Statement.prototype.all`: delegate to the native handle, normalizing a
thrown error. -/
def Statement.all (s : Statement) (bindParameters : List JSValue) : Except JSValue JSValue :=
  guarded (s.stmt.api.allFn s.stmt.pluckFlag bindParameters)

/-- `Statement.prototype.pluck`: forward the flag to the native handle and
return `this` for chaining; a missing argument enables pluck mode (source
doc comment, spec §4.2). -/
def Statement.pluck (s : Statement) (pluckMode : Option Bool) : Statement :=
  ⟨{ s.stmt with pluckFlag := pluckMode.getD true }⟩

/-! ## The `Database` facade -/

/-- `Database.prototype.prepare`: `new Statement(this.db.prepare(sql))`,
with a thrown engine error re-thrown through `convertError`. -/
def Database.prepare (eng : Engine) (sql : String) : Except JSValue Statement :=
  match eng.prepareFn sql with
  | .ok api => .ok ⟨⟨false, api⟩⟩
  | .error err => .error (convertThrow err)

/-- `Database.prototype.exec`: `this.db.exec(sql)`, with a thrown engine
error re-thrown through `convertError`.  `none` is success, `some e` is the
value the facade call throws. -/
def Database.exec (eng : Engine) (sql : String) : Option JSValue :=
  match eng.execFn sql with
  | none => none
  | some err => some (convertThrow err)

/-- JavaScript loose equality `v == null`, true exactly on the two nullish
values. -/
def isNullish : JSValue → Bool
  | .null => true
  | .undefined => true
  | _ => false

/-- `Database.prototype.pragma`: default a nullish `options` to `{}`, check
the argument types, then build everything from
`this.prepare("PRAGMA " + source)`: pluck-mode `get()` when
`options.simple` is truthy, `all()` otherwise. -/
def Database.pragma (eng : Engine) (source options : JSValue) : Except JSValue JSValue :=
  let opts := if isNullish options then JSValue.object .plain [] else options
  match source with
  | .string s =>
      if jsTypeof opts ≠ "object" then
        .error (mkTypeError "Expected second argument to be an options object")
      else
        match getProp opts "simple" with
        | .error e => .error e
        | .ok simple =>
            match Database.prepare eng ("PRAGMA " ++ s) with
            | .error e => .error e
            | .ok stmt =>
                if truthy simple then (stmt.pluck none).get [] else stmt.all []
  | _ => .error (mkTypeError "Expected first argument to be a string")

/-! ## The transaction wrapper -/

/-- An argument passed to a facade method from user code: either a plain
value or a callable. -/
inductive JSArg where
  | value (v : JSValue)
  | func (f : List JSValue → Except JSValue JSValue)

/-- `typeof` for arguments that may be functions. -/
def JSArg.typeofStr : JSArg → String
  | .value v => jsTypeof v
  | .func _ => "function"

/-- What a property attached to a transaction-function callable refers to:
a sibling mode variant (identified by its BEGIN mode string) or the owning
`Database` facade (`database: { value: this, enumerable: true }`). -/
inductive TxnProp where
  | variantRef (mode : String)
  | databaseRef

/-- A property descriptor as passed to `Object.defineProperties`; the
attributes omitted in the source default to `false`. -/
structure PropDesc where
  value : TxnProp
  writable : Bool
  enumerable : Bool
  configurable : Bool

/-- The `properties` record built by `Database.prototype.transaction` and
attached to each of the four mode-variant callables. -/
def txnProperties : List (String × PropDesc) :=
  [("default", ⟨.variantRef "", false, false, false⟩),
   ("deferred", ⟨.variantRef "DEFERRED", false, false, false⟩),
   ("immediate", ⟨.variantRef "IMMEDIATE", false, false, false⟩),
   ("exclusive", ⟨.variantRef "EXCLUSIVE", false, false, false⟩),
   ("database", ⟨.databaseRef, false, true, false⟩)]

/-- One transaction-function callable: the closure produced by
`wrapTxn(mode)` over the user function, with the property table attached by
`Object.defineProperties`. -/
structure TxnVariant where
  fn : List JSValue → Except JSValue JSValue
  mode : String
  props : List (String × PropDesc)

/-- `Database.prototype.transaction(fn)`: reject a non-callable argument
with a `TypeError` (before touching the engine), otherwise return the
default-mode variant carrying the shared property table. -/
def Database.transaction (fn : JSArg) : Except JSValue TxnVariant :=
  match fn with
  | .func f => .ok ⟨f, "", txnProperties⟩
  | .value _ => .error (mkTypeError "Expected first argument to be a function")

/-- Reading a sibling mode variant off a transaction-function callable:
resolves the named property to the sibling callable (same user function,
same shared property table, its own mode). -/
def TxnVariant.getVariant (t : TxnVariant) (name : String) : Option TxnVariant :=
  match t.props.lookup name with
  | some d =>
      match d.value with
      | .variantRef m => some ⟨t.fn, m, t.props⟩
      | .databaseRef => none
  | none => none

/-- The observable outcome of invoking a transaction-function: the SQL
strings the wrapper passed to `db.exec`, in order, and the returned value
or thrown error. -/
structure TxnOutcome where
  execs : List String
  result : Except JSValue JSValue

/-- The body of the closure produced by `wrapTxn(mode)`:

```js
(...bindParameters) => {
  db.exec("BEGIN " + mode);
  try {
    const result = fn(...bindParameters);
    db.exec("COMMIT");
    return result;
  } catch (err) {
    db.exec("ROLLBACK");
    throw err;
  }
};
```
A throw from `db.exec("BEGIN " + mode)` propagates with nothing else run; a
throw from the user function or from `db.exec("COMMIT")` reaches the
`catch`, which issues `db.exec("ROLLBACK")` and re-throws — unless that
rollback itself throws, in which case the rollback failure propagates
instead. -/
def wrapTxn (eng : Engine) (fn : List JSValue → Except JSValue JSValue)
    (mode : String) (bindParameters : List JSValue) : TxnOutcome :=
  match Database.exec eng ("BEGIN " ++ mode) with
  | some e => ⟨["BEGIN " ++ mode], .error e⟩
  | none =>
      match fn bindParameters with
      | .ok result =>
          match Database.exec eng "COMMIT" with
          | none => ⟨["BEGIN " ++ mode, "COMMIT"], .ok result⟩
          | some e =>
              match Database.exec eng "ROLLBACK" with
              | none => ⟨["BEGIN " ++ mode, "COMMIT", "ROLLBACK"], .error e⟩
              | some e2 => ⟨["BEGIN " ++ mode, "COMMIT", "ROLLBACK"], .error e2⟩
      | .error err =>
          match Database.exec eng "ROLLBACK" with
          | none => ⟨["BEGIN " ++ mode, "ROLLBACK"], .error err⟩
          | some e2 => ⟨["BEGIN " ++ mode, "ROLLBACK"], .error e2⟩

/-- Invoking a transaction-function variant with bind parameters. -/
def TxnVariant.invoke (t : TxnVariant) (eng : Engine) (bindParameters : List JSValue) : TxnOutcome :=
  wrapTxn eng t.fn t.mode bindParameters

/-! ## Concrete fixtures used by the witness theorems -/

/-- An engine error whose message is not JSON. -/
def plainErr : JSValue := .object .error [("message", .string "boom")]

/-- The JSON wire text of a structured engine error payload. -/
def structuredMsg : String :=
  "\x7b\"libsqlError\":true,\"message\":\"boom\",\"code\":\"SQLITE_ERROR\",\"rawCode\":1\x7d"

/-- The parsed payload of `structuredMsg`. -/
def structuredPayload : JSValue :=
  .object .plain [("libsqlError", .boolean true), ("message", .string "boom"),
    ("code", .string "SQLITE_ERROR"), ("rawCode", .number 1)]

/-- An engine error carrying the structured JSON payload in its message. -/
def structuredErr : JSValue := .object .error [("message", .string structuredMsg)]

/-- A native statement whose every verb throws `plainErr`. -/
def plainThrowApi : StmtApi :=
  ⟨fun _ _ => .thrown plainErr, fun _ _ => .thrown plainErr,
   fun _ _ => .thrown plainErr, fun _ _ => .thrown plainErr⟩

/-- A native statement whose every verb throws `null`. -/
def nullThrowApi : StmtApi :=
  ⟨fun _ _ => .thrown .null, fun _ _ => .thrown .null,
   fun _ _ => .thrown .null, fun _ _ => .thrown .null⟩

/-- An engine on which every call throws `plainErr`. -/
def failEngine : Engine := ⟨fun _ => .error plainErr, fun _ => some plainErr⟩

/-- An engine on which `exec` always succeeds. -/
def okEngine : Engine := ⟨fun _ => .error plainErr, fun _ => none⟩

/-- An engine on which only `exec("ROLLBACK")` throws. -/
def rollbackFailEngine : Engine :=
  ⟨fun _ => .error plainErr, fun sql => if sql = "ROLLBACK" then some plainErr else none⟩

/-- An engine on which only `exec("COMMIT")` throws. -/
def commitFailEngine : Engine :=
  ⟨fun _ => .error plainErr, fun sql => if sql = "COMMIT" then some plainErr else none⟩

/-- A native statement answering the `busy_timeout` pragma: scalar `3000`
in pluck mode, a single full row otherwise. -/
def pragmaApi : StmtApi :=
  ⟨fun _ _ => .ok .undefined,
   fun pl _ => .ok (if pl then .number 3000 else .object .plain [("busy_timeout", .number 3000)]),
   fun _ _ => .ok (.array [.object .plain [("busy_timeout", .number 3000)]]),
   fun _ _ => .ok .undefined⟩

/-- An engine whose `prepare` yields `pragmaApi` and whose `exec` succeeds. -/
def pragmaEngine : Engine := ⟨fun _ => .ok pragmaApi, fun _ => none⟩

/-- A trivial user function for transaction witnesses. -/
def txnBody0 : List JSValue → Except JSValue JSValue := fun _ => .ok (.number 7)

/-- A user function that always throws, for transaction witnesses. -/
def txnThrower : List JSValue → Except JSValue JSValue := fun _ => .error (.string "boom")

/-! ## Helper lemmas -/

/-- Throwing a nullish value through `throw convertError(err)` surfaces the
`TypeError` raised while reading `err.message`. -/
theorem convertThrow_nullish_typeError (e : JSValue) (h : isNullish e = true) :
    isTypeErrorVal (convertThrow e) = true := by
  cases e <;> simp [isNullish] at h <;> rfl

/-- On a non-nullish input, `convertError` returns without raising. -/
theorem convertError_isOk (v : JSValue) (h : isNullish v = false) :
    (convertError v).isOk = true := by
  cases v <;> simp [isNullish] at h <;> rfl

/-! ## The claims -/

/-- **C1.** For every error value `e` whose `message` field is the JSON
encoding of an object with `libsqlError` true, message `M`, code `C` and
rawCode `R`, the normalizer `convertError(e)` yields a `SqliteError` whose
`message` equals `M`, `code` equals `C` and `rawCode` equals `R`; detection
is by parsing `e.message` as JSON and checking the `libsqlError` marker.
(The `SqliteError` field layout is modelled from the spec, its class not
being among the sources.) -/
theorem c1_convertError_structured (err : JSValue) (s : String) (data m c r : JSValue)
    (hmsg : getProp err "message" = .ok (.string s))
    (hparse : jsonParse s = some data)
    (hmarker : getProp data "libsqlError" = .ok (.boolean true))
    (hm : getProp data "message" = .ok m)
    (hc : getProp data "code" = .ok c)
    (hr : getProp data "rawCode" = .ok r) :
    convertError err = .ok (mkSqliteError m c r) ∧
    getProp (mkSqliteError m c r) "message" = .ok m ∧
    getProp (mkSqliteError m c r) "code" = .ok c ∧
    getProp (mkSqliteError m c r) "rawCode" = .ok r := by
  have hdata : truthy data = true := by
    cases data <;> simp_all [getProp, truthy]
  have hbody : convertBody err (.string s) = mkSqliteError m c r := by
    have ht : truthy (JSValue.boolean true) = true := rfl
    simp [convertBody, hparse, hdata, hmarker, ht, hm, hc, hr]
  refine ⟨?_, rfl, rfl, rfl⟩
  unfold convertError
  rw [hmsg]
  exact congrArg Except.ok hbody

/-- Witness for C1 on a concrete structured engine error. -/
theorem c1_witness :
    convertError structuredErr =
      .ok (mkSqliteError (.string "boom") (.string "SQLITE_ERROR") (.number 1)) ∧
    getProp (mkSqliteError (.string "boom") (.string "SQLITE_ERROR") (.number 1)) "message" =
      .ok (.string "boom") ∧
    getProp (mkSqliteError (.string "boom") (.string "SQLITE_ERROR") (.number 1)) "code" =
      .ok (.string "SQLITE_ERROR") ∧
    getProp (mkSqliteError (.string "boom") (.string "SQLITE_ERROR") (.number 1)) "rawCode" =
      .ok (.number 1) :=
  c1_convertError_structured structuredErr structuredMsg structuredPayload
    (.string "boom") (.string "SQLITE_ERROR") (.number 1) rfl rfl rfl rfl rfl rfl

/-- **C4.** For every error value whose `message` field is not a string, is
not valid JSON, or parses to a value lacking a truthy `libsqlError` field,
`convertError` returns the identical error value it was given, never a new
or modified error. -/
theorem c4_convertError_passthrough (err msg : JSValue)
    (hmsg : getProp err "message" = .ok msg)
    (hcond : (∀ s, msg ≠ .string s) ∨
      (∃ s, msg = .string s ∧ jsonParse s = none) ∨
      (∃ s data, msg = .string s ∧ jsonParse s = some data ∧
        (truthy data = false ∨
          ∃ marker, getProp data "libsqlError" = .ok marker ∧ truthy marker = false))) :
    convertError err = .ok err := by
  have hbody : convertBody err msg = err := by
    rcases hcond with h | ⟨s, rfl, hn⟩ | ⟨s, data, rfl, hp, hrest⟩
    · cases msg <;> first | rfl | exact absurd rfl (h _)
    · simp [convertBody, hn]
    · rcases hrest with hfalse | ⟨marker, hmk, hmf⟩
      · simp [convertBody, hp, hfalse]
      · by_cases hd : truthy data
        · simp [convertBody, hp, hd, hmk, hmf]
        · simp [convertBody, hp, hd]
  unfold convertError
  rw [hmsg]
  exact congrArg Except.ok hbody

/-- Witness for C4 on a concrete non-JSON engine error. -/
theorem c4_witness : convertError plainErr = .ok plainErr :=
  c4_convertError_passthrough plainErr (.string "boom") rfl
    (Or.inr (Or.inl ⟨"boom", rfl, rfl⟩))

/-- **C10.** If an engine call made by `run`, `get`, `all`, `iterate`,
`prepare` or `exec` throws a nullish value, the normalizer itself raises a
`TypeError` while reading `message`, so the caller observes a `TypeError`
rather than the nullish value; on every non-nullish thrown value
`convertError` is total and returns without raising. -/
theorem c10_nullish_engine_throw :
    (∀ e, isNullish e = true →
        (convertError e).isOk = false ∧ isTypeErrorVal (convertThrow e) = true) ∧
    (∀ v, isNullish v = false → (convertError v).isOk = true) ∧
    (∀ (s : Statement) ps e, isNullish e = true →
        s.stmt.api.runFn s.stmt.pluckFlag ps = .thrown e →
        Statement.run s ps = .error (convertThrow e) ∧
        isTypeErrorVal (convertThrow e) = true) ∧
    (∀ (s : Statement) ps e, isNullish e = true →
        s.stmt.api.getFn s.stmt.pluckFlag ps = .thrown e →
        Statement.get s ps = .error (convertThrow e) ∧
        isTypeErrorVal (convertThrow e) = true) ∧
    (∀ (s : Statement) ps e, isNullish e = true →
        s.stmt.api.allFn s.stmt.pluckFlag ps = .thrown e →
        Statement.all s ps = .error (convertThrow e) ∧
        isTypeErrorVal (convertThrow e) = true) ∧
    (∀ (s : Statement) ps e, isNullish e = true →
        s.stmt.api.iterateFn s.stmt.pluckFlag ps = .thrown e →
        Statement.iterate s ps = .error (convertThrow e) ∧
        isTypeErrorVal (convertThrow e) = true) ∧
    (∀ eng sql e, isNullish e = true → eng.prepareFn sql = .error e →
        Database.prepare eng sql = .error (convertThrow e) ∧
        isTypeErrorVal (convertThrow e) = true) ∧
    (∀ eng sql e, isNullish e = true → eng.execFn sql = some e →
        Database.exec eng sql = some (convertThrow e) ∧
        isTypeErrorVal (convertThrow e) = true) := by
  refine ⟨?_, convertError_isOk, ?_, ?_, ?_, ?_, ?_, ?_⟩
  · intro e he
    refine ⟨?_, convertThrow_nullish_typeError e he⟩
    cases e <;> simp [isNullish] at he <;> rfl
  · intro s ps e he hrun
    refine ⟨?_, convertThrow_nullish_typeError e he⟩
    unfold Statement.run guarded
    rw [hrun]
  · intro s ps e he hget
    refine ⟨?_, convertThrow_nullish_typeError e he⟩
    unfold Statement.get guarded
    rw [hget]
  · intro s ps e he hall
    refine ⟨?_, convertThrow_nullish_typeError e he⟩
    unfold Statement.all guarded
    rw [hall]
  · intro s ps e he hit
    refine ⟨?_, convertThrow_nullish_typeError e he⟩
    unfold Statement.iterate guarded
    rw [hit]
  · intro eng sql e he hp
    refine ⟨?_, convertThrow_nullish_typeError e he⟩
    unfold Database.prepare
    rw [hp]
  · intro eng sql e he hx
    refine ⟨?_, convertThrow_nullish_typeError e he⟩
    unfold Database.exec
    rw [hx]

/-- Witness for C10 on a statement whose engine call throws `null`. -/
theorem c10_witness :
    (convertError .null).isOk = false ∧
    (convertError (.string "x")).isOk = true ∧
    Statement.run ⟨⟨false, nullThrowApi⟩⟩ [] = .error (convertThrow .null) ∧
    isTypeErrorVal (convertThrow .null) = true :=
  ⟨(c10_nullish_engine_throw.1 .null rfl).1,
   c10_nullish_engine_throw.2.1 (.string "x") rfl,
   (c10_nullish_engine_throw.2.2.1 ⟨⟨false, nullThrowApi⟩⟩ [] .null rfl rfl).1,
   (c10_nullish_engine_throw.2.2.1 ⟨⟨false, nullThrowApi⟩⟩ [] .null rfl rfl).2⟩

/-- **C5.** For every engine-level failure, each of `run`, `get`, `all`,
`iterate`, `Database.prepare` and `Database.exec` catches the error thrown
by the underlying engine call and re-throws exactly what
`throw convertError(err)` raises — normalized exactly once, never
swallowed, never double-wrapped (the final conjunct: the raised value is
exactly the result of `convertError` whenever it returns). -/
theorem c5_verbs_normalize :
    (∀ (s : Statement) ps err, s.stmt.api.runFn s.stmt.pluckFlag ps = .thrown err →
        Statement.run s ps = .error (convertThrow err)) ∧
    (∀ (s : Statement) ps err, s.stmt.api.getFn s.stmt.pluckFlag ps = .thrown err →
        Statement.get s ps = .error (convertThrow err)) ∧
    (∀ (s : Statement) ps err, s.stmt.api.allFn s.stmt.pluckFlag ps = .thrown err →
        Statement.all s ps = .error (convertThrow err)) ∧
    (∀ (s : Statement) ps err, s.stmt.api.iterateFn s.stmt.pluckFlag ps = .thrown err →
        Statement.iterate s ps = .error (convertThrow err)) ∧
    (∀ eng sql err, eng.prepareFn sql = .error err →
        Database.prepare eng sql = .error (convertThrow err)) ∧
    (∀ eng sql err, eng.execFn sql = some err →
        Database.exec eng sql = some (convertThrow err)) ∧
    (∀ err ce, convertError err = .ok ce → convertThrow err = ce) := by
  refine ⟨?_, ?_, ?_, ?_, ?_, ?_, ?_⟩
  · intro s ps err h; unfold Statement.run guarded; rw [h]
  · intro s ps err h; unfold Statement.get guarded; rw [h]
  · intro s ps err h; unfold Statement.all guarded; rw [h]
  · intro s ps err h; unfold Statement.iterate guarded; rw [h]
  · intro eng sql err h; unfold Database.prepare; rw [h]
  · intro eng sql err h; unfold Database.exec; rw [h]
  · intro err ce h; unfold convertThrow; rw [h]

/-- Witness for C5 on an engine that throws `plainErr` everywhere. -/
theorem c5_witness :
    Statement.run ⟨⟨false, plainThrowApi⟩⟩ [] = .error (convertThrow plainErr) ∧
    Statement.get ⟨⟨false, plainThrowApi⟩⟩ [] = .error (convertThrow plainErr) ∧
    Statement.all ⟨⟨false, plainThrowApi⟩⟩ [] = .error (convertThrow plainErr) ∧
    Statement.iterate ⟨⟨false, plainThrowApi⟩⟩ [] = .error (convertThrow plainErr) ∧
    Database.prepare failEngine "SELECT 1" = .error (convertThrow plainErr) ∧
    Database.exec failEngine "SELECT 1" = some (convertThrow plainErr) ∧
    convertThrow plainErr = plainErr :=
  ⟨c5_verbs_normalize.1 ⟨⟨false, plainThrowApi⟩⟩ [] plainErr rfl,
   c5_verbs_normalize.2.1 ⟨⟨false, plainThrowApi⟩⟩ [] plainErr rfl,
   c5_verbs_normalize.2.2.1 ⟨⟨false, plainThrowApi⟩⟩ [] plainErr rfl,
   c5_verbs_normalize.2.2.2.1 ⟨⟨false, plainThrowApi⟩⟩ [] plainErr rfl,
   c5_verbs_normalize.2.2.2.2.1 failEngine "SELECT 1" plainErr rfl,
   c5_verbs_normalize.2.2.2.2.2.1 failEngine "SELECT 1" plainErr rfl,
   c5_verbs_normalize.2.2.2.2.2.2 plainErr plainErr rfl⟩

/-- **C2.** For every user function that returns normally with value `v`
(and with the two wrapper `exec` calls succeeding, the case in which the
call can return at all), invoking any mode variant issues exactly one
`exec("BEGIN " + M)` (`M` the variant's mode, empty for the default
variant) followed by exactly one `exec("COMMIT")`, in that order, issues no
`ROLLBACK`, and returns `v` to the caller. -/
theorem c2_transaction_commit (v : TxnVariant) (eng : Engine) (args : List JSValue)
    (val : JSValue)
    (hb : Database.exec eng ("BEGIN " ++ v.mode) = none)
    (hc : Database.exec eng "COMMIT" = none)
    (hf : v.fn args = .ok val) :
    v.invoke eng args = ⟨["BEGIN " ++ v.mode, "COMMIT"], .ok val⟩ := by
  unfold TxnVariant.invoke wrapTxn
  rw [hb, hf, hc]

/-- Witness for C2 on the immediate-mode variant with a committing engine. -/
theorem c2_witness :
    TxnVariant.invoke ⟨txnBody0, "IMMEDIATE", txnProperties⟩ okEngine [] =
      ⟨["BEGIN IMMEDIATE", "COMMIT"], .ok (.number 7)⟩ :=
  c2_transaction_commit ⟨txnBody0, "IMMEDIATE", txnProperties⟩ okEngine [] (.number 7)
    rfl rfl rfl

/-- **C3.** For every user function that throws `E` (BEGIN having
succeeded), invoking a mode variant issues exactly one BEGIN and one
`exec("ROLLBACK")` and no COMMIT, and re-throws the original error `E`
unchanged; if the `exec("ROLLBACK")` call itself throws, that rollback
failure is not caught by the wrapper and propagates in place of `E`. -/
theorem c3_transaction_rollback (v : TxnVariant) (eng : Engine) (args : List JSValue)
    (E : JSValue)
    (hb : Database.exec eng ("BEGIN " ++ v.mode) = none)
    (hf : v.fn args = .error E) :
    (Database.exec eng "ROLLBACK" = none →
        v.invoke eng args = ⟨["BEGIN " ++ v.mode, "ROLLBACK"], .error E⟩) ∧
    (∀ e2, Database.exec eng "ROLLBACK" = some e2 →
        v.invoke eng args = ⟨["BEGIN " ++ v.mode, "ROLLBACK"], .error e2⟩) := by
  constructor
  · intro hr; unfold TxnVariant.invoke wrapTxn; rw [hb, hf, hr]
  · intro e2 hr; unfold TxnVariant.invoke wrapTxn; rw [hb, hf, hr]

/-- Witness for C3: a throwing body rolls back and re-throws; a failing
rollback propagates instead of the body error. -/
theorem c3_witness :
    TxnVariant.invoke ⟨txnThrower, "", txnProperties⟩ okEngine [] =
      ⟨["BEGIN ", "ROLLBACK"], .error (.string "boom")⟩ ∧
    TxnVariant.invoke ⟨txnThrower, "", txnProperties⟩ rollbackFailEngine [] =
      ⟨["BEGIN ", "ROLLBACK"], .error plainErr⟩ :=
  ⟨(c3_transaction_rollback ⟨txnThrower, "", txnProperties⟩ okEngine [] (.string "boom")
      rfl rfl).1 rfl,
   (c3_transaction_rollback ⟨txnThrower, "", txnProperties⟩ rollbackFailEngine []
      (.string "boom") rfl rfl).2 plainErr rfl⟩

/-- **C7.** When the initial `exec("BEGIN " + M)` call throws, that failure
propagates immediately to the caller, the wrapped user function is never
invoked (the outcome does not depend on it), and no COMMIT and no ROLLBACK
is issued. -/
theorem c7_transaction_begin_fails (v : TxnVariant) (eng : Engine) (args : List JSValue)
    (e : JSValue)
    (hb : Database.exec eng ("BEGIN " ++ v.mode) = some e) :
    v.invoke eng args = ⟨["BEGIN " ++ v.mode], .error e⟩ ∧
    (∀ g, v.invoke eng args = TxnVariant.invoke ⟨g, v.mode, v.props⟩ eng args) := by
  constructor
  · unfold TxnVariant.invoke wrapTxn; rw [hb]
  · intro g; unfold TxnVariant.invoke wrapTxn; rw [hb]

/-- Witness for C7 on an engine whose every `exec` throws. -/
theorem c7_witness :
    TxnVariant.invoke ⟨txnBody0, "EXCLUSIVE", txnProperties⟩ failEngine [] =
      ⟨["BEGIN EXCLUSIVE"], .error plainErr⟩ ∧
    TxnVariant.invoke ⟨txnBody0, "EXCLUSIVE", txnProperties⟩ failEngine [] =
      TxnVariant.invoke ⟨txnThrower, "EXCLUSIVE", txnProperties⟩ failEngine [] :=
  ⟨(c7_transaction_begin_fails ⟨txnBody0, "EXCLUSIVE", txnProperties⟩ failEngine []
      plainErr rfl).1,
   (c7_transaction_begin_fails ⟨txnBody0, "EXCLUSIVE", txnProperties⟩ failEngine []
      plainErr rfl).2 txnThrower⟩

/-- **C9.** For every callable `fn`, `transaction(fn)` produces the four
mode variants (default, deferred, immediate, exclusive) together, each
carrying the other variants and the `database` back-reference as read-only
(non-writable) properties — so any variant is reachable from any other —
and the callable returned is the default (empty-mode) variant. -/
theorem c9_transaction_variants (f : List JSValue → Except JSValue JSValue) :
    Database.transaction (.func f) = .ok ⟨f, "", txnProperties⟩ ∧
    (∀ (v : TxnVariant), v.fn = f → v.props = txnProperties →
        v.getVariant "default" = some ⟨f, "", txnProperties⟩ ∧
        v.getVariant "deferred" = some ⟨f, "DEFERRED", txnProperties⟩ ∧
        v.getVariant "immediate" = some ⟨f, "IMMEDIATE", txnProperties⟩ ∧
        v.getVariant "exclusive" = some ⟨f, "EXCLUSIVE", txnProperties⟩) ∧
    (∀ p ∈ txnProperties, p.2.writable = false) ∧
    txnProperties.lookup "database" = some ⟨.databaseRef, false, true, false⟩ := by
  refine ⟨rfl, ?_, ?_, rfl⟩
  · rintro ⟨vf, vm, vp⟩ hf hp
    dsimp only at hf hp
    subst hf; subst hp
    exact ⟨rfl, rfl, rfl, rfl⟩
  · intro p hp
    fin_cases hp <;> rfl

/-- Witness for C9: navigation between concrete sibling variants. -/
theorem c9_witness :
    Database.transaction (.func txnBody0) = .ok ⟨txnBody0, "", txnProperties⟩ ∧
    TxnVariant.getVariant ⟨txnBody0, "", txnProperties⟩ "immediate" =
      some ⟨txnBody0, "IMMEDIATE", txnProperties⟩ ∧
    TxnVariant.getVariant ⟨txnBody0, "IMMEDIATE", txnProperties⟩ "default" =
      some ⟨txnBody0, "", txnProperties⟩ ∧
    txnProperties.lookup "database" = some ⟨.databaseRef, false, true, false⟩ :=
  ⟨(c9_transaction_variants txnBody0).1,
   ((c9_transaction_variants txnBody0).2.1 ⟨txnBody0, "", txnProperties⟩ rfl rfl).2.2.1,
   ((c9_transaction_variants txnBody0).2.1 ⟨txnBody0, "IMMEDIATE", txnProperties⟩ rfl rfl).1,
   (c9_transaction_variants txnBody0).2.2.2⟩

/-- **C8.** A non-callable `transaction` argument and a non-string `pragma`
source or non-object `pragma` options each raise a `TypeError` directly in
the facade, before any engine call is attempted (the outcome is independent
of the engine), and the error does not pass through the normalizer: it is a
`TypeError` with no `code` or `rawCode` fields. -/
theorem c8_facade_argument_errors :
    (∀ (arg : JSArg), arg.typeofStr ≠ "function" →
        Database.transaction arg =
          .error (mkTypeError "Expected first argument to be a function")) ∧
    (∀ eng eng2 source options, jsTypeof source ≠ "string" →
        Database.pragma eng source options =
          .error (mkTypeError "Expected first argument to be a string") ∧
        Database.pragma eng source options = Database.pragma eng2 source options) ∧
    (∀ eng eng2 (s : String) options, isNullish options = false →
        jsTypeof options ≠ "object" →
        Database.pragma eng (.string s) options =
          .error (mkTypeError "Expected second argument to be an options object") ∧
        Database.pragma eng (.string s) options = Database.pragma eng2 (.string s) options) ∧
    (∀ m, isTypeErrorVal (mkTypeError m) = true ∧
        getProp (mkTypeError m) "code" = .ok .undefined ∧
        getProp (mkTypeError m) "rawCode" = .ok .undefined) := by
  refine ⟨?_, ?_, ?_, ?_⟩
  · intro arg h
    cases arg with
    | value v => rfl
    | func f => exact absurd rfl h
  · intro eng eng2 source options h
    cases source <;> first | exact ⟨rfl, rfl⟩ | exact absurd rfl h
  · intro eng eng2 s options hnull hobj
    constructor
    · simp [Database.pragma, hnull, hobj]
    · simp [Database.pragma, hnull, hobj]
  · intro m
    exact ⟨rfl, rfl, rfl⟩

/-- Witness for C8 on concrete bad arguments. -/
theorem c8_witness :
    Database.transaction (.value (.number 1)) =
      .error (mkTypeError "Expected first argument to be a function") ∧
    Database.pragma failEngine (.number 1) .undefined =
      .error (mkTypeError "Expected first argument to be a string") ∧
    Database.pragma failEngine (.string "x") (.number 5) =
      .error (mkTypeError "Expected second argument to be an options object") ∧
    getProp (mkTypeError "Expected first argument to be a function") "code" =
      .ok .undefined :=
  ⟨c8_facade_argument_errors.1 (.value (.number 1)) (by decide),
   (c8_facade_argument_errors.2.1 failEngine failEngine (.number 1) .undefined (by decide)).1,
   (c8_facade_argument_errors.2.2.1 failEngine failEngine "x" (.number 5) rfl (by decide)).1,
   (c8_facade_argument_errors.2.2.2 "Expected first argument to be a function").2.1⟩

/-- **C6.** `pragma(source, options)` prepares exactly the statement
`"PRAGMA " + source`; with a truthy `options.simple` it returns the result
of pluck-mode `get()` on that statement, otherwise the full row sequence
from `all()`; it raises a `TypeError` for a non-string source or non-object
options, and a missing or null options defaults to an empty object. -/
theorem c6_pragma (eng : Engine) (s : String) :
    (Database.pragma eng (.string s) .null =
        Database.pragma eng (.string s) (.object .plain []) ∧
     Database.pragma eng (.string s) .undefined =
        Database.pragma eng (.string s) (.object .plain [])) ∧
    (∀ options sv, isNullish options = false → jsTypeof options = "object" →
        getProp options "simple" = .ok sv → truthy sv = true →
        Database.pragma eng (.string s) options =
          (Database.prepare eng ("PRAGMA " ++ s)).bind fun stmt => (stmt.pluck none).get []) ∧
    (∀ options sv, isNullish options = false → jsTypeof options = "object" →
        getProp options "simple" = .ok sv → truthy sv = false →
        Database.pragma eng (.string s) options =
          (Database.prepare eng ("PRAGMA " ++ s)).bind fun stmt => stmt.all []) ∧
    (∀ (st : Statement), (st.pluck none).stmt.pluckFlag = true) ∧
    (∀ source options, jsTypeof source ≠ "string" →
        Database.pragma eng source options =
          .error (mkTypeError "Expected first argument to be a string")) ∧
    (∀ options, isNullish options = false → jsTypeof options ≠ "object" →
        Database.pragma eng (.string s) options =
          .error (mkTypeError "Expected second argument to be an options object")) := by
  refine ⟨⟨rfl, rfl⟩, ?_, ?_, fun st => rfl, ?_, ?_⟩
  · intro options sv hnull hobj hsv htru
    cases hp : Database.prepare eng ("PRAGMA " ++ s) with
    | ok stmt => simp [Database.pragma, hnull, hobj, hsv, htru, hp, Except.bind]
    | error e => simp [Database.pragma, hnull, hobj, hsv, htru, hp, Except.bind]
  · intro options sv hnull hobj hsv htru
    cases hp : Database.prepare eng ("PRAGMA " ++ s) with
    | ok stmt => simp [Database.pragma, hnull, hobj, hsv, htru, hp, Except.bind]
    | error e => simp [Database.pragma, hnull, hobj, hsv, htru, hp, Except.bind]
  · intro source options h
    cases source <;> first | rfl | exact absurd rfl h
  · intro options hnull hobj
    simp [Database.pragma, hnull, hobj]

/-- Witness for C6: the two spec scenarios, a simple pragma returning a
scalar and a plain pragma returning the row sequence. -/
theorem c6_witness :
    Database.pragma pragmaEngine (.string "busy_timeout")
        (.object .plain [("simple", .boolean true)]) = .ok (.number 3000) ∧
    Database.pragma pragmaEngine (.string "table_info") .null =
      .ok (.array [.object .plain [("busy_timeout", .number 3000)]]) :=
  ⟨((c6_pragma pragmaEngine "busy_timeout").2.1 (.object .plain [("simple", .boolean true)])
      (.boolean true) rfl rfl rfl rfl).trans rfl,
   ((c6_pragma pragmaEngine "table_info").1.1).trans rfl⟩
